import Mathlib

/-!
Verification of the IONOS SMTP relay's IMAP Sent-folder machinery.

The JavaScript source is shallowly embedded: each IMAP-effectful function
becomes a pure Lean function over an explicit environment describing the
outcomes the IMAP server would produce (listings, creation results, append
results, logout results), returning the function's result together with a
trace of the network operations it attempted.  Pure helpers
(`detectDelimiter`, `mapSmtpError`, `buildRFC822Message`) are embedded
directly.
-/

namespace IonosRelay

/-- A mailbox descriptor as surfaced by imapflow's `list` calls:
path, flags and the optional special-use attribute. -/
structure Mailbox where
  path : String
  flags : List String
  specialUse : Option String
deriving Repr, DecidableEq

/-- JavaScript `String.prototype.toLowerCase` restricted to the character
ranges that can occur in this code base: ASCII letters plus the Latin-1
uppercase range (covering the accented letters of the fixed candidate
list, e.g. the initial letter of the French candidates).  Both ranges
lowercase by adding 0x20, exactly as JS does for them. -/
def jsCharToLower (c : Char) : Char :=
  if 'A' ≤ c ∧ c ≤ 'Z' then Char.ofNat (c.toNat + 32)
  else if 'À' ≤ c ∧ c ≤ 'Þ' ∧ c ≠ '×' then Char.ofNat (c.toNat + 32)
  else c

/-- Lowercase a whole string, JS-style (see `jsCharToLower`). -/
def jsToLower (s : String) : String :=
  String.mk (s.data.map jsCharToLower)

/-- Substring containment on strings, the embedding of JS
`String.prototype.includes` (and of the regex test `/TRYCREATE/i` after
lowercasing). -/
def containsSub (s pat : String) : Bool :=
  (List.range (s.data.length + 1)).any fun i => pat.data.isPrefixOf (s.data.drop i)

/-- The test `/TRYCREATE/i.test(msg)` from the probe handler of
`findOrCreateSentBox`. -/
def hasTryCreate (m : String) : Bool :=
  containsSub (jsToLower m) "trycreate"

/-- JS `path.includes(c)` for a single character, on the string's data. -/
def strContainsChar (s : String) (c : Char) : Bool :=
  s.data.contains c

/-- Delimiter detection from `findOrCreateSentBox`: scan the listed paths
in order; the first path containing `/` selects `/`, otherwise a path
containing `.` selects `.`; default `/`. -/
def detectDelimiter : List String → Char
  | [] => '/'
  | p :: rest =>
    if strContainsChar p '/' then '/'
    else if strContainsChar p '.' then '.'
    else detectDelimiter rest

/-- One attempted IMAP operation, as recorded in a function's trace.
`ok` flags record whether the server accepted the attempt. -/
inductive Ev where
  | newClient
  | connect (ok : Bool)
  | lockBox (path : String) (ok : Bool)
  | releaseLock (path : String)
  | listSpecial
  | listAll
  | listRefresh
  | create (path : String) (ok : Bool)
  | append (path : String) (ok : Bool)
  | search
  | flagsAdd
  | expunge
  | logout
deriving Repr, DecidableEq

/-- The creation attempts recorded in a trace, in order. -/
def createEvents (tr : List Ev) : List (String × Bool) :=
  tr.filterMap fun e => match e with
    | .create p ok => some (p, ok)
    | _ => none

/-- Number of logout attempts in a trace. -/
def countLogout : List Ev → Nat
  | [] => 0
  | Ev.logout :: tr => countLogout tr + 1
  | _ :: tr => countLogout tr

/-- Outcomes of the best-effort probe-cleanup block of `findOrCreateSentBox`
(lock the resolved box, search the probe by subject, add the deleted flag,
expunge, release).  All of these are caught and only logged. -/
structure CleanupEnv where
  lockOk : Bool
  searchThrows : Bool
  searchSeqs : List Nat
  flagAddOk : Bool
deriving Repr, DecidableEq

/-- The server/environment outcomes consumed by `findOrCreateSentBox`:
each field is the result the corresponding imapflow call would produce.
`none` on an `Option` field means the call throws. -/
structure DiscoveryEnv where
  credsOk : Bool
  connectOk : Bool
  connectErrMsg : String
  inboxLockOk : Bool
  specialList : Option (List Mailbox)
  listAll : Option (List Mailbox)
  listAllErrMsg : String
  createOk : String → Bool
  refreshedAfter : String → Option (List Mailbox)
  probeAppend : String → Option String
  cleanup : CleanupEnv
  retryCreateOk : Bool
  retryCreateMsg : String
  retryAppend : Option String
  logoutOk : Bool
  logoutErrMsg : String

/-- The JS test `(mb.flags && mb.flags.includes(S)) || (mb.specialUse &&
mb.specialUse === S)` for the Sent designation S. -/
def isSentDesignated (mb : Mailbox) : Bool :=
  mb.flags.contains "\\Sent" || mb.specialUse == some "\\Sent"

/-- The fixed localized candidate list from `findOrCreateSentBox`, built
around the detected delimiter. -/
def candidates (delim : Char) : List String :=
  ["Sent", "Sent Items", "Sent Messages",
   "INBOX".push delim ++ "Sent", "INBOX".push delim ++ "Sent Items",
   "Enviados", "Elementos enviados",
   "Gesendet", "Gesendete Elemente",
   "Envoyés", "Éléments envoyés"]

/-- Lookup in the `byPath` map: a JS `Map` built from the full listing keyed
by lowercased path keeps the LAST entry for a duplicated key, so the lookup
is a reverse search. -/
def byPathGet (all : List Mailbox) (key : String) : Option Mailbox :=
  all.reverse.find? fun mb => jsToLower mb.path == key

/-- Step 3 of the resolver: the first candidate whose lowercase form has a
lowercase-exact match among the listed paths, resolved through `byPathGet`. -/
def nameMatch (all : List Mailbox) (delim : Char) : Option Mailbox :=
  match (candidates delim).find? (fun c => (byPathGet all (jsToLower c)).isSome) with
  | some hit => byPathGet all (jsToLower hit)
  | none => none

/-- The three creation candidates of step 4, in their fixed order. -/
def tryPaths (delim : Char) : List String :=
  ["INBOX".push delim ++ "Sent", "INBOX".push delim ++ "Sent Items", "Sent"]

/-- The creation loop of step 4: attempt each path in order; after a
successful create, re-list and take the entry whose path equals the created
path, breaking only when that entry is found (the `created` flag stays set
once any create succeeded).  A throwing create or re-list is caught and the
loop continues. -/
def createLoop (env : DiscoveryEnv) : List String → Bool → Option Mailbox × Bool × List Ev
  | [], created => (none, created, [])
  | p :: rest, created =>
    if env.createOk p then
      match env.refreshedAfter p with
      | none =>
        let (s, c, tr) := createLoop env rest true
        (s, c, [Ev.create p true, Ev.listRefresh] ++ tr)
      | some refreshed =>
        match refreshed.find? (fun mb => mb.path == p) with
        | some mb => (some mb, true, [Ev.create p true, Ev.listRefresh])
        | none =>
          let (s, c, tr) := createLoop env rest true
          (s, c, [Ev.create p true, Ev.listRefresh] ++ tr)
    else
      let (s, c, tr) := createLoop env rest created
      (s, c, Ev.create p false :: tr)

/-- The operations attempted inside the cleanup block after a successful
probe append (search by subject; if hits, flag as deleted then expunge). -/
def cleanupInner (c : CleanupEnv) : List Ev :=
  Ev.search ::
    (if c.searchThrows then []
     else if c.searchSeqs.isEmpty then []
     else if c.flagAddOk then [Ev.flagsAdd, Ev.expunge] else [Ev.flagsAdd])

/-- The whole cleanup block's trace: lock the resolved box, run the inner
operations, release in a `finally`.  Every failure is swallowed. -/
def cleanupTrace (c : CleanupEnv) (p : String) : List Ev :=
  if c.lockOk then Ev.lockBox p true :: (cleanupInner c ++ [Ev.releaseLock p])
  else [Ev.lockBox p false]

/-- The resolver's result record `{sentPath, delimiter, created}`. -/
structure SentResult where
  sentPath : String
  delimiter : Char
  created : Bool
deriving Repr, DecidableEq

/-- Success exit: `await client.logout()` then return.  A throwing logout
escapes to the outer catch, which attempts one more (swallowed) logout and
rethrows the logout error. -/
def finishLogout (env : DiscoveryEnv) (tr : List Ev) (res : SentResult) :
    Except String SentResult × List Ev :=
  if env.logoutOk then (.ok res, tr ++ [Ev.logout])
  else (.error env.logoutErrMsg, tr ++ [Ev.logout, Ev.logout])

/-- Probe-failure exit: `await client.logout(); throw new Error(msg)`.
The outer catch then attempts one more (swallowed) logout; if the inner
logout itself threw, its error is what propagates. -/
def failAfterLogout (env : DiscoveryEnv) (tr : List Ev) (msg : String) :
    Except String SentResult × List Ev :=
  if env.logoutOk then (.error msg, tr ++ [Ev.logout, Ev.logout])
  else (.error env.logoutErrMsg, tr ++ [Ev.logout, Ev.logout])

/-- Exit through the outer catch for an error thrown without a preceding
logout (failed full listing, exhausted creation attempts): one swallowed
logout attempt, then rethrow. -/
def failViaCatch (tr : List Ev) (msg : String) :
    Except String SentResult × List Ev :=
  (.error msg, tr ++ [Ev.logout])

/-- Step 5 of the resolver: probe append to the resolved path; on success
run the best-effort cleanup and log out; on a TRYCREATE-class failure do one
create-plus-retry-append cycle; on any other failure fail immediately. -/
def probePhase (env : DiscoveryEnv) (sentPath : String) (delim : Char)
    (created : Bool) (tr : List Ev) : Except String SentResult × List Ev :=
  match env.probeAppend sentPath with
  | none =>
    finishLogout env (tr ++ [Ev.append sentPath true] ++ cleanupTrace env.cleanup sentPath)
      ⟨sentPath, delim, created⟩
  | some m =>
    if hasTryCreate m then
      if env.retryCreateOk then
        match env.retryAppend with
        | none =>
          finishLogout env
            (tr ++ [Ev.append sentPath false, Ev.create sentPath true, Ev.append sentPath true])
            ⟨sentPath, delim, created⟩
        | some m2 =>
          failAfterLogout env
            (tr ++ [Ev.append sentPath false, Ev.create sentPath true, Ev.append sentPath false])
            ("APPEND falló incluso tras TRYCREATE: " ++ m2)
      else
        failAfterLogout env
          (tr ++ [Ev.append sentPath false, Ev.create sentPath false])
          ("APPEND falló incluso tras TRYCREATE: " ++ env.retryCreateMsg)
    else
      failAfterLogout env (tr ++ [Ev.append sentPath false]) ("APPEND falló: " ++ m)

/-- The aggregate error thrown when every creation attempt failed. -/
def aggregateCreateError : String :=
  "No pude crear ni encontrar carpeta de enviados después de todos los intentos"

/-- Shallow embedding of `findOrCreateSentBox` (src/sentbox.js): credential
check, connect, best-effort INBOX lock/release, SPECIAL-USE listing, full
listing with delimiter detection, exact lowercase name matching, the
creation loop, and the probe-append validation.  The INBOX lock release is
modelled as always succeeding. -/
def findOrCreateSentBox (env : DiscoveryEnv) : Except String SentResult × List Ev :=
  if ¬env.credsOk then
    (.error "IMAP credentials missing (IMAP_USER/IMAP_PASS or SMTP_USER/SMTP_PASS)", [])
  else if ¬env.connectOk then
    (.error env.connectErrMsg, [Ev.newClient, Ev.connect false])
  else
    let tr0 : List Ev := [Ev.newClient, Ev.connect true] ++
      (if env.inboxLockOk then [Ev.lockBox "INBOX" true, Ev.releaseLock "INBOX"]
       else [Ev.lockBox "INBOX" false])
    let special := env.specialList.getD []
    let tr1 := tr0 ++ [Ev.listSpecial]
    let sent0 := special.find? isSentDesignated
    match env.listAll with
    | none => failViaCatch (tr1 ++ [Ev.listAll]) env.listAllErrMsg
    | some all =>
      let tr2 := tr1 ++ [Ev.listAll]
      let delim := detectDelimiter (all.map (·.path))
      match sent0 with
      | some mb => probePhase env mb.path delim false tr2
      | none =>
        match nameMatch all delim with
        | some mb => probePhase env mb.path delim false tr2
        | none =>
          let (s, created, trC) := createLoop env (tryPaths delim) false
          match s with
          | none => failViaCatch (tr2 ++ trC) aggregateCreateError
          | some mb => probePhase env mb.path delim created (tr2 ++ trC)

/-- The `raw` argument of `appendToSent` as a JS value: a string, or one of
the non-string shapes the guard must reject. -/
inductive RawArg where
  | str (s : String)
  | buffer
  | object
  | undefined
deriving Repr, DecidableEq

/-- The guard `if (!raw || typeof raw !== 'string') return`: only a
non-empty (truthy) string passes. -/
def rawPassesGuard : RawArg → Bool
  | .str s => s ≠ ""
  | _ => false

/-- Environment consumed by `appendToSent`: enablement flag, credential
presence, the configured mailbox name, and the outcome of each IMAP call. -/
structure AppendEnv where
  saveSentCopy : Bool
  hasCreds : Bool
  mailboxName : String
  connectOk : Bool
  lockOk : String → Bool
  appendOk : Bool
  logoutOk : Bool

/-- The fixed fallback mailbox list of `appendToSent`. -/
def fallbackMailboxes : List String :=
  ["Enviados", "Sent", "Sent Items", "INBOX.Sent"]

/-- Walk the fallback list: first name that locks wins; every attempt is
recorded. -/
def lockFallbacks (env : AppendEnv) : List String → Option String × List Ev
  | [] => (none, [])
  | f :: rest =>
    if env.lockOk f then (some f, [Ev.lockBox f true])
    else
      let (r, tr) := lockFallbacks env rest
      (r, Ev.lockBox f false :: tr)

/-- Shallow embedding of `appendToSent` (src/imap.js).  The result is the
promise's outcome: `.error` would be a rejection.  The outer try/catch logs
every operational error and the `finally` always attempts logout (its own
failure swallowed), so every path yields `.ok ()`. -/
def appendToSent (env : AppendEnv) (raw : RawArg) : Except String Unit × List Ev :=
  if ¬env.saveSentCopy then (.ok (), [])
  else if ¬env.hasCreds then (.ok (), [])
  else if ¬rawPassesGuard raw then (.ok (), [])
  else if ¬env.connectOk then (.ok (), [Ev.newClient, Ev.connect false, Ev.logout])
  else
    let (lockPath, trL) :=
      if env.lockOk env.mailboxName then (some env.mailboxName, [Ev.lockBox env.mailboxName true])
      else
        let (r, tr) := lockFallbacks env fallbackMailboxes
        (r, Ev.lockBox env.mailboxName false :: tr)
    match lockPath with
    | none => (.ok (), [Ev.newClient, Ev.connect true] ++ trL ++ [Ev.logout])
    | some p =>
      (.ok (), [Ev.newClient, Ev.connect true] ++ trL ++
        [Ev.append p env.appendOk, Ev.releaseLock p, Ev.logout])

/-- The function `mapSmtpError` from server.js: lowercase the message and classify it by
ordered substring tests, returning the HTTP status and Spanish message. -/
def mapSmtpError (errMessage : String) : Nat × String :=
  let message := jsToLower errMessage
  if containsSub message "authentication" || containsSub message "auth" ||
     containsSub message "invalid login" || containsSub message "535" then
    (401, "Error de autenticación SMTP")
  else if containsSub message "connection" || containsSub message "connect" ||
          containsSub message "timeout" || containsSub message "enotfound" ||
          containsSub message "network" || containsSub message "dns" then
    (502, "Error de conexión con el servidor SMTP")
  else if containsSub message "tls" || containsSub message "ssl" ||
          containsSub message "certificate" then
    (502, "Error de seguridad TLS/SSL")
  else if containsSub message "recipient" || containsSub message "invalid" ||
          containsSub message "550" || containsSub message "553" then
    (422, "Dirección de email inválida o rechazada")
  else
    (500, "Error interno del servidor SMTP")

/-- The spec's SMTP error taxonomy (§7): authentication, connectivity,
TLS/certificate, recipient rejection, unclassified. -/
inductive SmtpErrorClass where
  | auth
  | connectivity
  | tls
  | recipient
  | other
deriving Repr, DecidableEq

/-- Spec-side classifier, written from the spec's taxonomy words: an error
message belongs to the first class whose markers it mentions. -/
def classifySmtpError (errMessage : String) : SmtpErrorClass :=
  let message := jsToLower errMessage
  if containsSub message "authentication" || containsSub message "auth" ||
     containsSub message "invalid login" || containsSub message "535" then
    .auth
  else if containsSub message "connection" || containsSub message "connect" ||
          containsSub message "timeout" || containsSub message "enotfound" ||
          containsSub message "network" || containsSub message "dns" then
    .connectivity
  else if containsSub message "tls" || containsSub message "ssl" ||
          containsSub message "certificate" then
    .tls
  else if containsSub message "recipient" || containsSub message "invalid" ||
          containsSub message "550" || containsSub message "553" then
    .recipient
  else
    .other

/-- The status the spec's taxonomy assigns to each class. -/
def statusForClass : SmtpErrorClass → Nat
  | .auth => 401
  | .connectivity => 502
  | .tls => 502
  | .recipient => 422
  | .other => 500

/-- Outcome of `validateSendEmail` as seen by the handler. -/
inductive ValidationOutcome where
  | ok
  | fail (details : String)
deriving Repr, DecidableEq

/-- Outcome of `transporter.sendMail`. -/
inductive SmtpOutcome where
  | ok (messageId : String) (accepted rejected : List String)
  | err (message : String)
deriving Repr, DecidableEq

/-- JSON body of the `/send` response. -/
inductive ResponseBody where
  | success (messageId : String) (accepted rejected : List String)
  | failure (error : String) (details : Option String)
deriving Repr, DecidableEq

/-- An HTTP response: status code plus JSON body. -/
structure HttpResponse where
  status : Nat
  body : ResponseBody
deriving Repr, DecidableEq

/-- Shallow embedding of the `POST /send` handler (server.js): validation
failure yields 422; an SMTP error is mapped through `mapSmtpError`; success
yields 200 with `{messageId, accepted, rejected}` and, when the save flag is
on, fires `appendToSent` in the background — its trace is the second
component, and its outcome is discarded (`.catch` only logs). -/
def sendPost (validation : ValidationOutcome) (smtp : SmtpOutcome)
    (env : AppendEnv) (rawMsg : RawArg) : HttpResponse × List Ev :=
  match validation with
  | .fail d => (⟨422, .failure "Datos de entrada inválidos" (some d)⟩, [])
  | .ok =>
    match smtp with
    | .err m =>
      let me := mapSmtpError m
      (⟨me.1, .failure me.2 none⟩, [])
    | .ok mid acc rej =>
      let bg := if env.saveSentCopy then (appendToSent env rawMsg).2 else []
      (⟨200, .success mid acc rej⟩, bg)

/-- A Nodemailer recipient field: a single string or an array of strings. -/
inductive StrOrList where
  | str (s : String)
  | list (l : List String)
deriving Repr, DecidableEq

/-- The JS coercion `Array.isArray(x) ? x.join(sep) : x` with a comma-space
separator. -/
def joinSOL : StrOrList → String
  | .str s => s
  | .list l => String.intercalate ", " l

/-- JS truthiness of an optional recipient field: a missing value and the
empty string are falsy; an array (even empty) is truthy. -/
def solTruthy : Option StrOrList → Bool
  | some (.str s) => s ≠ ""
  | some (.list _) => true
  | none => false

/-- JS `a || b` on an optional string: an absent or empty string falls
through to the default. -/
def jsOr (a : Option String) (b : String) : String :=
  match a with
  | some s => if s = "" then b else s
  | none => b

/-- The Nodemailer mail options consumed by `buildRFC822Message`.
`fromAddr` and `toAddr` embed the JS `from` and `to` fields (Lean keywords). -/
structure MailOptions where
  fromAddr : Option String
  toAddr : StrOrList
  cc : Option StrOrList
  bcc : Option StrOrList
  subject : Option String
  text : Option String
  html : Option String
  messageId : Option String
deriving Repr, DecidableEq

/-- Shallow embedding of `buildRFC822Message` (src/imap.js).  The impure
inputs — the Date header string, the generated fallback message id, and the
random multipart boundary token — are passed as parameters. -/
def buildRFC822Message (opts : MailOptions) (fromEmail : Option String)
    (dateStr genId boundary : String) : String :=
  let sender := jsOr fromEmail (jsOr opts.fromAddr "noreply@piensaajedrez.com")
  let toStr := joinSOL opts.toAddr
  let subject := jsOr opts.subject ""
  let text := jsOr opts.text ""
  let htmlVal := jsOr opts.html ""
  let messageId := jsOr opts.messageId genId
  let raw :=
    "Message-ID: " ++ messageId ++ "\r\n" ++
    "Date: " ++ dateStr ++ "\r\n" ++
    "From: " ++ sender ++ "\r\n" ++
    "To: " ++ toStr ++ "\r\n" ++
    "Subject: " ++ subject ++ "\r\n" ++
    "MIME-Version: 1.0\r\n"
  let raw := raw ++
    (if solTruthy opts.cc then "Cc: " ++ joinSOL (opts.cc.getD (.str "")) ++ "\r\n" else "")
  let raw := raw ++
    (if solTruthy opts.bcc then "Bcc: " ++ joinSOL (opts.bcc.getD (.str "")) ++ "\r\n" else "")
  if htmlVal != "" && text != "" then
    raw ++ "Content-Type: multipart/alternative; boundary=\"" ++ boundary ++ "\"\r\n\r\n" ++
    "--" ++ boundary ++ "\r\n" ++
    "Content-Type: text/plain; charset=utf-8\r\n" ++
    "Content-Transfer-Encoding: 8bit\r\n\r\n" ++
    text ++ "\r\n\r\n" ++
    "--" ++ boundary ++ "\r\n" ++
    "Content-Type: text/html; charset=utf-8\r\n" ++
    "Content-Transfer-Encoding: 8bit\r\n\r\n" ++
    htmlVal ++ "\r\n\r\n" ++
    "--" ++ boundary ++ "--\r\n"
  else if htmlVal != "" then
    raw ++ "Content-Type: text/html; charset=utf-8\r\n" ++
    "Content-Transfer-Encoding: 8bit\r\n\r\n" ++
    htmlVal ++ "\r\n"
  else
    raw ++ "Content-Type: text/plain; charset=utf-8\r\n" ++
    "Content-Transfer-Encoding: 8bit\r\n\r\n" ++
    text ++ "\r\n"

/-- A text/plain MIME part as the spec describes one: utf-8 charset, 8bit
transfer encoding, then the body. -/
def plainPart (body : String) : String :=
  "Content-Type: text/plain; charset=utf-8\r\n" ++
  "Content-Transfer-Encoding: 8bit\r\n\r\n" ++ body

/-- A text/html MIME part as the spec describes one: utf-8 charset, 8bit
transfer encoding, then the body. -/
def htmlPart (body : String) : String :=
  "Content-Type: text/html; charset=utf-8\r\n" ++
  "Content-Transfer-Encoding: 8bit\r\n\r\n" ++ body

/-- Body shape written from the spec's words (§4.3): both present gives
multipart/alternative under the boundary token with the plain part first
and the html part second; only html gives a single text/html part; only
text or neither gives a single text/plain part (empty when neither). -/
def specBodyShape (text html boundary : String) : String :=
  if html ≠ "" ∧ text ≠ "" then
    "Content-Type: multipart/alternative; boundary=\"" ++ boundary ++ "\"\r\n\r\n" ++
    "--" ++ boundary ++ "\r\n" ++ plainPart (text ++ "\r\n\r\n") ++
    "--" ++ boundary ++ "\r\n" ++ htmlPart (html ++ "\r\n\r\n") ++
    "--" ++ boundary ++ "--\r\n"
  else if html ≠ "" then
    htmlPart (html ++ "\r\n")
  else
    plainPart (text ++ "\r\n")

/-- The header block of `buildRFC822Message`, factored out so the body can
be compared against `specBodyShape`. -/
def messageHeaders (opts : MailOptions) (fromEmail : Option String)
    (dateStr genId : String) : String :=
  "Message-ID: " ++ jsOr opts.messageId genId ++ "\r\n" ++
  "Date: " ++ dateStr ++ "\r\n" ++
  "From: " ++ jsOr fromEmail (jsOr opts.fromAddr "noreply@piensaajedrez.com") ++ "\r\n" ++
  "To: " ++ joinSOL opts.toAddr ++ "\r\n" ++
  "Subject: " ++ jsOr opts.subject "" ++ "\r\n" ++
  "MIME-Version: 1.0\r\n" ++
  (if solTruthy opts.cc then "Cc: " ++ joinSOL (opts.cc.getD (.str "")) ++ "\r\n" else "") ++
  (if solTruthy opts.bcc then "Bcc: " ++ joinSOL (opts.bcc.getD (.str "")) ++ "\r\n" else "")

/-! ## Helper lemmas -/

theorem createEvents_append (a b : List Ev) :
    createEvents (a ++ b) = createEvents a ++ createEvents b := by
  simp [createEvents]

theorem countLogout_append (a b : List Ev) :
    countLogout (a ++ b) = countLogout a + countLogout b := by
  induction a with
  | nil => simp [countLogout]
  | cons e tr ih => cases e <;> (simp [countLogout, ih]; try omega)

theorem createEvents_cleanupTrace (c : CleanupEnv) (p : String) :
    createEvents (cleanupTrace c p) = [] := by
  unfold cleanupTrace cleanupInner
  split_ifs <;> simp [createEvents]

theorem countLogout_cleanupTrace (c : CleanupEnv) (p : String) :
    countLogout (cleanupTrace c p) = 0 := by
  unfold cleanupTrace cleanupInner
  split_ifs <;> rfl

/-- The trace prefix shared by every run of `findOrCreateSentBox` that
reaches the full listing. -/
def baseTrace (env : DiscoveryEnv) : List Ev :=
  [Ev.newClient, Ev.connect true] ++
    (if env.inboxLockOk then [Ev.lockBox "INBOX" true, Ev.releaseLock "INBOX"]
     else [Ev.lockBox "INBOX" false]) ++ [Ev.listSpecial, Ev.listAll]

theorem createEvents_baseTrace (env : DiscoveryEnv) :
    createEvents (baseTrace env) = [] := by
  unfold baseTrace
  split_ifs <;> simp [createEvents]

theorem countLogout_baseTrace (env : DiscoveryEnv) :
    countLogout (baseTrace env) = 0 := by
  unfold baseTrace
  split_ifs <;> rfl

/-- A probe append that the server accepts leads to cleanup and a single
final logout (when the logout itself succeeds). -/
theorem probePhase_success (env : DiscoveryEnv) (p : String) (d : Char) (c : Bool)
    (tr : List Ev) (hp : env.probeAppend p = none) (hl : env.logoutOk = true) :
    probePhase env p d c tr =
      (.ok ⟨p, d, c⟩,
        tr ++ [Ev.append p true] ++ cleanupTrace env.cleanup p ++ [Ev.logout]) := by
  simp [probePhase, hp, finishLogout, hl]

/-- Reaching the probe through a SPECIAL-USE hit. -/
theorem findOrCreate_reach_special (env : DiscoveryEnv) (l : List Mailbox)
    (mb : Mailbox) (all : List Mailbox)
    (hc : env.credsOk = true) (hco : env.connectOk = true)
    (hs : env.specialList = some l)
    (hf : l.find? isSentDesignated = some mb)
    (ha : env.listAll = some all) :
    findOrCreateSentBox env =
      probePhase env mb.path (detectDelimiter (all.map (·.path))) false (baseTrace env) := by
  simp [findOrCreateSentBox, baseTrace, hc, hco, hs, hf, ha]

/-- Reaching the probe through an exact lowercase name match. -/
theorem findOrCreate_reach_nameMatch (env : DiscoveryEnv) (mb : Mailbox)
    (all : List Mailbox)
    (hc : env.credsOk = true) (hco : env.connectOk = true)
    (hs : (env.specialList.getD []).find? isSentDesignated = none)
    (ha : env.listAll = some all)
    (hm : nameMatch all (detectDelimiter (all.map (·.path))) = some mb) :
    findOrCreateSentBox env =
      probePhase env mb.path (detectDelimiter (all.map (·.path))) false (baseTrace env) := by
  simp [findOrCreateSentBox, baseTrace, hc, hco, hs, ha, hm]

/-- Reaching step 4 with nothing resolved, every creation failing. -/
theorem findOrCreate_reach_create_fail (env : DiscoveryEnv) (all : List Mailbox)
    (b : Bool) (trC : List Ev)
    (hc : env.credsOk = true) (hco : env.connectOk = true)
    (hs : (env.specialList.getD []).find? isSentDesignated = none)
    (ha : env.listAll = some all)
    (hm : nameMatch all (detectDelimiter (all.map (·.path))) = none)
    (hloop : createLoop env (tryPaths (detectDelimiter (all.map (·.path)))) false =
      (none, b, trC)) :
    findOrCreateSentBox env = failViaCatch (baseTrace env ++ trC) aggregateCreateError := by
  simp [findOrCreateSentBox, baseTrace, hc, hco, hs, ha, hm, hloop]

/-- Reaching step 4 with nothing resolved, some creation succeeding. -/
theorem findOrCreate_reach_create_succ (env : DiscoveryEnv) (all : List Mailbox)
    (mb : Mailbox) (created : Bool) (trC : List Ev)
    (hc : env.credsOk = true) (hco : env.connectOk = true)
    (hs : (env.specialList.getD []).find? isSentDesignated = none)
    (ha : env.listAll = some all)
    (hm : nameMatch all (detectDelimiter (all.map (·.path))) = none)
    (hloop : createLoop env (tryPaths (detectDelimiter (all.map (·.path)))) false =
      (some mb, created, trC)) :
    findOrCreateSentBox env =
      probePhase env mb.path (detectDelimiter (all.map (·.path))) created
        (baseTrace env ++ trC) := by
  simp [findOrCreateSentBox, baseTrace, hc, hco, hs, ha, hm, hloop]

/-- A creation loop whose attempts all fail leaves the accumulator and
records one failed creation per path. -/
theorem createLoop_all_fail (env : DiscoveryEnv) (ps : List String) (b : Bool)
    (h : ∀ q ∈ ps, env.createOk q = false) :
    createLoop env ps b = (none, b, ps.map fun q => Ev.create q false) := by
  induction ps generalizing b with
  | nil => rfl
  | cons q rest ih =>
    have hq : env.createOk q = false := h q (by simp)
    simp [createLoop, hq, ih _ fun r hr => h r (by simp [hr])]

/-- The creation loop stops at the first path whose creation succeeds and
whose refreshed listing contains it. -/
theorem createLoop_first_success (env : DiscoveryEnv) (pre : List String)
    (p : String) (rest : List String) (b : Bool)
    (refreshed : List Mailbox) (mb : Mailbox)
    (hpre : ∀ q ∈ pre, env.createOk q = false)
    (hp : env.createOk p = true)
    (hr : env.refreshedAfter p = some refreshed)
    (hfind : refreshed.find? (fun x => x.path == p) = some mb) :
    createLoop env (pre ++ p :: rest) b =
      (some mb, true,
        (pre.map fun q => Ev.create q false) ++ [Ev.create p true, Ev.listRefresh]) := by
  induction pre generalizing b with
  | nil => simp [createLoop, hp, hr, hfind]
  | cons q pre' ih =>
    have hq : env.createOk q = false := hpre q (by simp)
    have hrec := ih b fun r hr' => hpre r (by simp [hr'])
    simp [createLoop, hq, hrec, List.cons_append]

/-- A benign, fully concrete discovery environment: base point for the
concrete instantiations below. -/
def sampleEnv : DiscoveryEnv where
  credsOk := true
  connectOk := true
  connectErrMsg := "connect failed"
  inboxLockOk := true
  specialList := some []
  listAll := some []
  listAllErrMsg := "list failed"
  createOk := fun _ => false
  refreshedAfter := fun _ => none
  probeAppend := fun _ => none
  cleanup := ⟨true, false, [], true⟩
  retryCreateOk := true
  retryCreateMsg := "create refused"
  retryAppend := none
  logoutOk := true
  logoutErrMsg := "logout failed"

/-- A mailbox carrying the Sent designation both ways. -/
def mbSentSpecial : Mailbox :=
  ⟨"Special/Sent", ["\\HasNoChildren", "\\Sent"], some "\\Sent"⟩

/-! ## Claim theorems -/

/-- C1: whenever the SPECIAL-USE listing contains a folder carrying the
Sent designation (the `\Sent` flag or the `\Sent` specialUse attribute),
`findOrCreateSentBox` selects that folder (the first carrier) and — the
probe append succeeding — returns its exact path with `created = false`,
performing no folder creation and no candidate-name matching on the way. -/
theorem C1_specialUse_resolution (env : DiscoveryEnv) (l all : List Mailbox)
    (mb : Mailbox)
    (hc : env.credsOk = true) (hco : env.connectOk = true)
    (hs : env.specialList = some l)
    (hf : l.find? isSentDesignated = some mb)
    (ha : env.listAll = some all)
    (hp : env.probeAppend mb.path = none)
    (hl : env.logoutOk = true) :
    (findOrCreateSentBox env).1 =
      .ok ⟨mb.path, detectDelimiter (all.map (·.path)), false⟩ ∧
    createEvents (findOrCreateSentBox env).2 = [] := by
  rw [findOrCreate_reach_special env l mb all hc hco hs hf ha,
      probePhase_success env mb.path _ false _ hp hl]
  refine ⟨rfl, ?_⟩
  simp only [createEvents_append, createEvents_baseTrace, createEvents_cleanupTrace]
  rfl

/-- C1 witness: a concrete server advertising `Special/Sent` via SPECIAL-USE. -/
theorem C1_specialUse_resolution_witness :
    (findOrCreateSentBox { sampleEnv with specialList := some [mbSentSpecial] }).1 =
      .ok ⟨"Special/Sent", '/', false⟩ ∧
    createEvents
      (findOrCreateSentBox { sampleEnv with specialList := some [mbSentSpecial] }).2 = [] :=
  C1_specialUse_resolution _ [mbSentSpecial] [] mbSentSpecial
    rfl rfl rfl (by decide) rfl rfl rfl

/-- C2: with no SPECIAL-USE Sent folder, a listed folder whose lowercase
path equals the lowercase form of one of the fixed candidates is returned
unmodified (it is a member of the listing and its path is untouched) with
`created = false`; the candidate chosen is the first in the fixed list with
a lowercase-exact match, and no folder creation is attempted. -/
theorem C2_name_match_resolution (env : DiscoveryEnv) (all : List Mailbox)
    (mb : Mailbox) (c0 : String)
    (hc : env.credsOk = true) (hco : env.connectOk = true)
    (hs : (env.specialList.getD []).find? isSentDesignated = none)
    (ha : env.listAll = some all)
    (hhit : (candidates (detectDelimiter (all.map (·.path)))).find?
      (fun c => (byPathGet all (jsToLower c)).isSome) = some c0)
    (hget : byPathGet all (jsToLower c0) = some mb)
    (hp : env.probeAppend mb.path = none)
    (hl : env.logoutOk = true) :
    mb ∈ all ∧
    (findOrCreateSentBox env).1 =
      .ok ⟨mb.path, detectDelimiter (all.map (·.path)), false⟩ ∧
    createEvents (findOrCreateSentBox env).2 = [] := by
  have hm : nameMatch all (detectDelimiter (all.map (·.path))) = some mb := by
    unfold nameMatch
    rw [hhit]
    exact hget
  have hmem : mb ∈ all := by
    have := List.mem_of_find?_eq_some hget
    simpa using this
  rw [findOrCreate_reach_nameMatch env mb all hc hco hs ha hm,
      probePhase_success env mb.path _ false _ hp hl]
  refine ⟨hmem, rfl, ?_⟩
  simp only [createEvents_append, createEvents_baseTrace, createEvents_cleanupTrace]
  rfl

/-- C2 witness: a server listing only `INBOX` and `GESENDET`; the German
candidate `Gesendet` is the first lowercase-exact match. -/
theorem C2_name_match_resolution_witness :
    (⟨"GESENDET", [], none⟩ : Mailbox) ∈
      [(⟨"INBOX", [], none⟩ : Mailbox), ⟨"GESENDET", [], none⟩] ∧
    (findOrCreateSentBox { sampleEnv with
        listAll := some [⟨"INBOX", [], none⟩, ⟨"GESENDET", [], none⟩] }).1 =
      .ok ⟨"GESENDET", '/', false⟩ ∧
    createEvents (findOrCreateSentBox { sampleEnv with
        listAll := some [⟨"INBOX", [], none⟩, ⟨"GESENDET", [], none⟩] }).2 = [] :=
  C2_name_match_resolution _ [⟨"INBOX", [], none⟩, ⟨"GESENDET", [], none⟩]
    ⟨"GESENDET", [], none⟩ "Gesendet" rfl rfl rfl rfl (by decide) (by decide) rfl rfl

/-- C5: the hierarchy delimiter is decided by the first listed folder whose
path contains a `/` or `.` separator — `/` wins inside a single path — and
defaults to `/` when no listed path contains either; in particular the two
concrete listings of the spec give `/` and `.`. -/
theorem C5_delimiter_detection :
    detectDelimiter ["INBOX", "INBOX/Work", "Drafts"] = '/' ∧
    detectDelimiter ["INBOX", "INBOX.Work"] = '.' ∧
    (∀ ps : List String,
      (∀ p ∈ ps, strContainsChar p '/' = false ∧ strContainsChar p '.' = false) →
      detectDelimiter ps = '/') ∧
    (∀ (pre : List String) (p : String) (rest : List String),
      (∀ q ∈ pre, strContainsChar q '/' = false ∧ strContainsChar q '.' = false) →
      (strContainsChar p '/' = true ∨ strContainsChar p '.' = true) →
      detectDelimiter (pre ++ p :: rest) =
        if strContainsChar p '/' then '/' else '.') := by
  refine ⟨by decide, by decide, ?_, ?_⟩
  · intro ps h
    induction ps with
    | nil => rfl
    | cons q rest ih =>
      have hq := h q (by simp)
      simp only [detectDelimiter, hq.1, hq.2, if_false, Bool.false_eq_true]
      exact ih fun p hp => h p (by simp [hp])
  · intro pre p rest hpre hp
    induction pre with
    | nil =>
      rcases hp with h1 | h1
      · simp [detectDelimiter, h1]
      · cases h2 : strContainsChar p '/' <;> simp [detectDelimiter, h1, h2]
    | cons q pre' ih =>
      have hq := hpre q (by simp)
      simp only [List.cons_append, detectDelimiter, hq.1, hq.2, if_false,
        Bool.false_eq_true]
      exact ih fun r hr => hpre r (by simp [hr])

/-- C5 witness: a listing with no nested paths falls back to `/`. -/
theorem C5_delimiter_detection_witness :
    detectDelimiter ["INBOX", "Drafts"] = '/' :=
  C5_delimiter_detection.2.2.1 ["INBOX", "Drafts"] (by decide)

theorem createEvents_map_create_false (ps : List String) :
    createEvents (ps.map fun q => Ev.create q false) = ps.map fun q => (q, false) := by
  induction ps with
  | nil => rfl
  | cons q rest ih =>
    simp only [List.map_cons, createEvents, List.filterMap_cons] at ih ⊢
    simpa using ih

/-- C3: with neither SPECIAL-USE nor a name match, creation is attempted at
the three fixed candidate paths in order.  If every creation fails the
whole resolution fails with the aggregate error, after attempting exactly
those three paths; otherwise the loop stops at the first success whose
refreshed listing carries the path, and (the probe succeeding) resolution
returns that path with `created = true`, having attempted only the failed
prefix plus the one success. -/
theorem C3_creation_fallback (env : DiscoveryEnv) (all : List Mailbox) (d : Char)
    (hc : env.credsOk = true) (hco : env.connectOk = true)
    (hs : (env.specialList.getD []).find? isSentDesignated = none)
    (ha : env.listAll = some all)
    (hd : d = detectDelimiter (all.map (·.path)))
    (hm : nameMatch all d = none) :
    ((∀ q ∈ tryPaths d, env.createOk q = false) →
      (findOrCreateSentBox env).1 = .error aggregateCreateError ∧
      createEvents (findOrCreateSentBox env).2 = (tryPaths d).map fun q => (q, false)) ∧
    (∀ (pre : List String) (p : String) (rest : List String)
        (refreshed : List Mailbox) (mb : Mailbox),
      tryPaths d = pre ++ p :: rest →
      (∀ q ∈ pre, env.createOk q = false) →
      env.createOk p = true →
      env.refreshedAfter p = some refreshed →
      refreshed.find? (fun x => x.path == p) = some mb →
      env.probeAppend p = none →
      env.logoutOk = true →
      (findOrCreateSentBox env).1 = .ok ⟨p, d, true⟩ ∧
      createEvents (findOrCreateSentBox env).2 =
        (pre.map fun q => (q, false)) ++ [(p, true)]) := by
  subst hd
  constructor
  · intro hall
    have hloop := createLoop_all_fail env _ false hall
    rw [findOrCreate_reach_create_fail env all false _ hc hco hs ha hm hloop]
    refine ⟨rfl, ?_⟩
    simp only [failViaCatch, createEvents_append, createEvents_baseTrace,
      createEvents_map_create_false]
    rfl
  · intro pre p rest refreshed mb hsplit hpre hp hr hfind hprobe hl
    have hmbp : mb.path = p := by
      have := List.find?_some hfind
      simpa using this
    have hloop : createLoop env
        (tryPaths (detectDelimiter (all.map (·.path)))) false =
        (some mb, true,
          (pre.map fun q => Ev.create q false) ++ [Ev.create p true, Ev.listRefresh]) := by
      rw [hsplit]
      exact createLoop_first_success env pre p rest false refreshed mb hpre hp hr hfind
    rw [findOrCreate_reach_create_succ env all mb true _ hc hco hs ha hm hloop,
      probePhase_success env mb.path _ true _ (hmbp ▸ hprobe) hl]
    refine ⟨by rw [hmbp], ?_⟩
    simp only [createEvents_append, createEvents_baseTrace, createEvents_cleanupTrace,
      createEvents_map_create_false]
    simp [createEvents, hmbp]

/-- An environment whose server accepts creating `INBOX/Sent` and lists it
afterwards. -/
def sampleEnvCreate : DiscoveryEnv :=
  { sampleEnv with
    createOk := fun p => p == "INBOX/Sent",
    refreshedAfter := fun _ =>
      some [⟨"INBOX", [], none⟩, ⟨"INBOX/Sent", [], none⟩] }

/-- C3 witness: against a server listing nothing, the all-fail environment
fails with the aggregate error after the three fixed attempts, and an
environment accepting the first candidate resolves to `INBOX/Sent` with
`created = true`. -/
theorem C3_creation_fallback_witness :
    ((findOrCreateSentBox sampleEnv).1 = .error aggregateCreateError ∧
      createEvents (findOrCreateSentBox sampleEnv).2 =
        [("INBOX/Sent", false), ("INBOX/Sent Items", false), ("Sent", false)]) ∧
    ((findOrCreateSentBox sampleEnvCreate).1 = .ok ⟨"INBOX/Sent", '/', true⟩ ∧
      createEvents (findOrCreateSentBox sampleEnvCreate).2 =
        [("INBOX/Sent", true)]) :=
  ⟨(C3_creation_fallback sampleEnv [] '/' rfl rfl rfl rfl rfl rfl).1 (by decide),
   (C3_creation_fallback sampleEnvCreate [] '/' rfl rfl rfl rfl rfl rfl).2
     [] "INBOX/Sent" ["INBOX/Sent Items", "Sent"]
     [⟨"INBOX", [], none⟩, ⟨"INBOX/Sent", [], none⟩] ⟨"INBOX/Sent", [], none⟩
     rfl (by simp) (by decide) rfl (by decide) rfl rfl⟩

/-- C4: probe validation.  A probe append rejected with a TRYCREATE-class
message gets exactly one create-plus-retry cycle: a successful retry makes
resolution succeed, a failing retry (create or append) fails it with the
underlying server error; a rejection without a TRYCREATE hint fails
resolution immediately; and the outcome never depends on the post-append
cleanup (search, delete-flag, expunge), whose failures are only logged. -/
theorem C4_probe_trycreate_handling (env : DiscoveryEnv) (p : String) (d : Char)
    (c : Bool) (tr : List Ev) :
    (∀ m, env.probeAppend p = some m → hasTryCreate m = true →
      env.retryCreateOk = true → env.retryAppend = none → env.logoutOk = true →
      (probePhase env p d c tr).1 = .ok ⟨p, d, c⟩) ∧
    (∀ m m2, env.probeAppend p = some m → hasTryCreate m = true →
      env.retryCreateOk = true → env.retryAppend = some m2 → env.logoutOk = true →
      (probePhase env p d c tr).1 =
        .error ("APPEND falló incluso tras TRYCREATE: " ++ m2)) ∧
    (∀ m, env.probeAppend p = some m → hasTryCreate m = true →
      env.retryCreateOk = false → env.logoutOk = true →
      (probePhase env p d c tr).1 =
        .error ("APPEND falló incluso tras TRYCREATE: " ++ env.retryCreateMsg)) ∧
    (∀ m, env.probeAppend p = some m → hasTryCreate m = false →
      env.logoutOk = true →
      (probePhase env p d c tr).1 = .error ("APPEND falló: " ++ m)) ∧
    (∀ m, env.probeAppend p = some m → hasTryCreate m = true →
      env.retryCreateOk = true →
      createEvents (probePhase env p d c tr).2 = createEvents tr ++ [(p, true)]) ∧
    (∀ c1 c2 : CleanupEnv,
      (probePhase { env with cleanup := c1 } p d c tr).1 =
      (probePhase { env with cleanup := c2 } p d c tr).1) := by
  refine ⟨?_, ?_, ?_, ?_, ?_, ?_⟩
  · intro m hm ht hrc hra hl
    simp [probePhase, hm, ht, hrc, hra, finishLogout, hl]
  · intro m m2 hm ht hrc hra hl
    simp [probePhase, hm, ht, hrc, hra, failAfterLogout, hl]
  · intro m hm ht hrc hl
    simp [probePhase, hm, ht, hrc, failAfterLogout, hl]
  · intro m hm ht hl
    simp [probePhase, hm, ht, failAfterLogout, hl]
  · intro m hm ht hrc
    cases hra : env.retryAppend with
    | none =>
      simp only [probePhase, hm, ht, hrc, hra, finishLogout]
      split_ifs <;>
        simp [createEvents_append, createEvents]
    | some m2 =>
      simp only [probePhase, hm, ht, hrc, hra, failAfterLogout]
      split_ifs <;>
        simp [createEvents_append, createEvents]
  · intro c1 c2
    cases hpa : env.probeAppend p with
    | none =>
      simp only [probePhase, hpa, finishLogout]
      split_ifs <;> rfl
    | some m => simp [probePhase, hpa, finishLogout, failAfterLogout]

/-- C4 witness: a server whose probe append answers with a TRYCREATE hint
and whose create-plus-retry pair succeeds yields a successful resolution. -/
theorem C4_probe_trycreate_handling_witness :
    (probePhase { sampleEnv with
        probeAppend := fun _ => some "NO [TRYCREATE] mailbox does not exist" }
      "Sent" '/' false []).1 = .ok ⟨"Sent", '/', false⟩ :=
  (C4_probe_trycreate_handling _ "Sent" '/' false []).1
    "NO [TRYCREATE] mailbox does not exist" rfl (by decide) rfl rfl rfl

theorem countLogout_create_cons (p : String) (b : Bool) (tr : List Ev) :
    countLogout (Ev.create p b :: tr) = countLogout tr := rfl

theorem countLogout_lockBox_cons (p : String) (b : Bool) (tr : List Ev) :
    countLogout (Ev.lockBox p b :: tr) = countLogout tr := rfl

theorem countLogout_append1 (p : String) (b : Bool) :
    countLogout [Ev.append p b] = 0 := rfl

theorem countLogout_retry3 (p : String) (b1 b2 b3 : Bool) :
    countLogout [Ev.append p b1, Ev.create p b2, Ev.append p b3] = 0 := rfl

theorem countLogout_retry2 (p : String) (b1 b2 : Bool) :
    countLogout [Ev.append p b1, Ev.create p b2] = 0 := rfl

theorem countLogout_one : countLogout [Ev.logout] = 1 := rfl

theorem countLogout_nil : countLogout [] = 0 := rfl

theorem countLogout_skip_append (p : String) (b : Bool) (tr : List Ev) :
    countLogout (Ev.append p b :: tr) = countLogout tr := rfl

theorem countLogout_logout_cons (tr : List Ev) :
    countLogout (Ev.logout :: tr) = countLogout tr + 1 := rfl

theorem countLogout_crlist_cons (p : String) (b : Bool) (tr : List Ev) :
    countLogout (Ev.create p b :: Ev.listRefresh :: tr) = countLogout tr := rfl

theorem countLogout_two : countLogout [Ev.logout, Ev.logout] = 2 := rfl

theorem countLogout_crlist (p : String) :
    countLogout [Ev.create p true, Ev.listRefresh] = 0 := rfl

/-- The creation loop never attempts a logout. -/
theorem countLogout_createLoop (env : DiscoveryEnv) (ps : List String) (b : Bool) :
    countLogout (createLoop env ps b).2.2 = 0 := by
  induction ps generalizing b with
  | nil => rfl
  | cons p rest ih =>
    by_cases h : env.createOk p = true
    · rcases hr : env.refreshedAfter p with _ | refreshed
      · rcases hrec : createLoop env rest true with ⟨s, c, tr⟩
        have h0 := ih true
        rw [hrec] at h0
        simp [createLoop, h, hr, hrec, countLogout_crlist_cons, h0]
      · rcases hf : refreshed.find? (fun mb => mb.path == p) with _ | mb
        · rcases hrec : createLoop env rest true with ⟨s, c, tr⟩
          have h0 := ih true
          rw [hrec] at h0
          simp [createLoop, h, hr, hf, hrec, countLogout_crlist_cons, h0]
        · simp [createLoop, h, hr, hf, countLogout_crlist]
    · rcases hrec : createLoop env rest b with ⟨s, c, tr⟩
      have h0 := ih b
      rw [hrec] at h0
      simp [createLoop, h, hrec, countLogout_create_cons, h0]

/-- Every probe-validation exit attempts at least one and at most two
logouts. -/
theorem countLogout_probePhase (env : DiscoveryEnv) (p : String) (d : Char)
    (c : Bool) (tr : List Ev) (h : countLogout tr = 0) :
    1 ≤ countLogout (probePhase env p d c tr).2 ∧
    countLogout (probePhase env p d c tr).2 ≤ 2 := by
  have hclean := countLogout_cleanupTrace env.cleanup p
  unfold probePhase finishLogout failAfterLogout
  cases env.probeAppend p with
  | none =>
    split_ifs <;>
      (simp only [countLogout_append, countLogout_skip_append, countLogout_logout_cons,
        countLogout_nil, countLogout_one, countLogout_two, h, hclean]
       ; omega)
  | some m =>
    cases htc : hasTryCreate m <;> cases env.retryAppend <;> split_ifs <;>
      (simp [htc, countLogout_append, countLogout_skip_append, countLogout_create_cons,
        countLogout_logout_cons, countLogout_nil, countLogout_one, countLogout_two,
        h, hclean]
       ; try omega)

/-- Reaching the outer catch through a failing full listing. -/
theorem findOrCreate_reach_listFail (env : DiscoveryEnv)
    (hc : env.credsOk = true) (hco : env.connectOk = true)
    (ha : env.listAll = none) :
    findOrCreateSentBox env = failViaCatch (baseTrace env) env.listAllErrMsg := by
  simp [findOrCreateSentBox, baseTrace, hc, hco, ha]

/-- Variant of the SPECIAL-USE reach lemma phrased on the defaulted
special listing. -/
theorem findOrCreate_reach_special' (env : DiscoveryEnv) (mb : Mailbox)
    (all : List Mailbox)
    (hc : env.credsOk = true) (hco : env.connectOk = true)
    (hf : (env.specialList.getD []).find? isSentDesignated = some mb)
    (ha : env.listAll = some all) :
    findOrCreateSentBox env =
      probePhase env mb.path (detectDelimiter (all.map (·.path))) false (baseTrace env) := by
  simp [findOrCreateSentBox, baseTrace, hc, hco, hf, ha]

/-- Every run of `findOrCreateSentBox` that opens a session (credentials
present, connect accepted) attempts at least one and at most two logouts. -/
theorem countLogout_findOrCreate (env : DiscoveryEnv)
    (hc : env.credsOk = true) (hco : env.connectOk = true) :
    1 ≤ countLogout (findOrCreateSentBox env).2 ∧
    countLogout (findOrCreateSentBox env).2 ≤ 2 := by
  have hbase := countLogout_baseTrace env
  cases ha : env.listAll with
  | none =>
    rw [findOrCreate_reach_listFail env hc hco ha]
    simp [failViaCatch, countLogout_append, hbase, countLogout_one]
  | some all =>
    cases hf : (env.specialList.getD []).find? isSentDesignated with
    | some mb =>
      rw [findOrCreate_reach_special' env mb all hc hco hf ha]
      exact countLogout_probePhase env mb.path _ false _ hbase
    | none =>
      cases hm : nameMatch all (detectDelimiter (all.map (·.path))) with
      | some mb =>
        rw [findOrCreate_reach_nameMatch env mb all hc hco hf ha hm]
        exact countLogout_probePhase env mb.path _ false _ hbase
      | none =>
        rcases hloop : createLoop env
            (tryPaths (detectDelimiter (all.map (·.path)))) false with ⟨s, b, trC⟩
        have htrC : countLogout trC = 0 := by
          have := countLogout_createLoop env
            (tryPaths (detectDelimiter (all.map (·.path)))) false
          rw [hloop] at this
          exact this
        cases s with
        | none =>
          rw [findOrCreate_reach_create_fail env all b trC hc hco hf ha hm hloop]
          simp [failViaCatch, countLogout_append, hbase, htrC, countLogout_one]
        | some mb =>
          rw [findOrCreate_reach_create_succ env all mb b trC hc hco hf ha hm hloop]
          have hb : countLogout (baseTrace env ++ trC) = 0 := by
            simp [countLogout_append, hbase, htrC]
          exact countLogout_probePhase env mb.path _ b _ hb

/-- The fallback-lock walk of `appendToSent` never attempts a logout. -/
theorem countLogout_lockFallbacks (env : AppendEnv) (ps : List String) :
    countLogout (lockFallbacks env ps).2 = 0 := by
  induction ps with
  | nil => rfl
  | cons f rest ih =>
    by_cases h : env.lockOk f = true
    · simp [lockFallbacks, h, countLogout_lockBox_cons, countLogout_nil]
    · rcases hrec : lockFallbacks env rest with ⟨r, tr⟩
      have h0 := ih
      rw [hrec] at h0
      simp [lockFallbacks, h, hrec, countLogout_lockBox_cons, h0]

/-- Every run of `appendToSent` that passes the guards attempts exactly one
logout. -/
theorem countLogout_appendToSent (env : AppendEnv) (raw : RawArg)
    (h1 : env.saveSentCopy = true) (h2 : env.hasCreds = true)
    (h3 : rawPassesGuard raw = true) :
    countLogout (appendToSent env raw).2 = 1 := by
  unfold appendToSent
  by_cases hco : env.connectOk = true
  · by_cases hl : env.lockOk env.mailboxName = true
    · simp [h1, h2, h3, hco, hl, countLogout_append, countLogout_lockBox_cons,
        countLogout_skip_append, countLogout_logout_cons, countLogout_nil, countLogout]
    · rcases hfb : lockFallbacks env fallbackMailboxes with ⟨r, tr⟩
      have h0 := countLogout_lockFallbacks env fallbackMailboxes
      rw [hfb] at h0
      cases r <;>
        simp [h1, h2, h3, hco, hl, hfb, countLogout_append, countLogout_lockBox_cons,
          countLogout_skip_append, countLogout_logout_cons, countLogout_nil, h0,
          countLogout]
  · simp [h1, h2, h3, hco, countLogout]

/-- An environment whose server rejects the probe append with a message
bearing no TRYCREATE hint. -/
def sampleEnvProbeFail : DiscoveryEnv :=
  { sampleEnv with
    specialList := some [mbSentSpecial],
    probeAppend := fun _ => some "NO permission denied" }

/-- C6 counterexample: on the probe-failure exit path the resolver logs out
twice — once before throwing (`await client.logout(); throw …`) and once in
the outer catch — so a session-opening run does not close its session
exactly once on every exit path. -/
theorem C6_counterexample_double_logout :
    sampleEnvProbeFail.credsOk = true ∧ sampleEnvProbeFail.connectOk = true ∧
    countLogout (findOrCreateSentBox sampleEnvProbeFail).2 = 2 := by
  refine ⟨rfl, rfl, ?_⟩
  decide

/-- C6 (amended): every session-opening run closes its session on every
exit path — `findOrCreateSentBox` attempts at least one and at most two
logouts (the second attempt, on probe-failure paths or after a failed first
logout, is swallowed), `appendToSent` past its guards attempts exactly one
logout, and a failing logout in `appendToSent` is swallowed rather than
propagated. -/
theorem C6_session_always_closed :
    (∀ env : DiscoveryEnv, env.credsOk = true → env.connectOk = true →
      1 ≤ countLogout (findOrCreateSentBox env).2 ∧
      countLogout (findOrCreateSentBox env).2 ≤ 2) ∧
    (∀ (env : AppendEnv) (raw : RawArg),
      env.saveSentCopy = true → env.hasCreds = true → rawPassesGuard raw = true →
      countLogout (appendToSent env raw).2 = 1) ∧
    (∀ (env : AppendEnv) (raw : RawArg),
      env.logoutOk = false → (appendToSent env raw).1 = .ok ()) := by
  refine ⟨fun env hc hco => countLogout_findOrCreate env hc hco,
    fun env raw h1 h2 h3 => countLogout_appendToSent env raw h1 h2 h3,
    fun env raw _ => ?_⟩
  unfold appendToSent
  repeat' split
  all_goals rfl

/-- A benign concrete append environment. -/
def sampleAppendEnv : AppendEnv where
  saveSentCopy := true
  hasCreds := true
  mailboxName := "Sent"
  connectOk := true
  lockOk := fun _ => true
  appendOk := true
  logoutOk := true

/-- C6 witness: concrete runs of both functions. -/
theorem C6_session_always_closed_witness :
    (1 ≤ countLogout (findOrCreateSentBox sampleEnv).2 ∧
      countLogout (findOrCreateSentBox sampleEnv).2 ≤ 2) ∧
    countLogout (appendToSent sampleAppendEnv (.str "Subject: x")).2 = 1 ∧
    (appendToSent { sampleAppendEnv with logoutOk := false } (.str "Subject: x")).1 =
      .ok () :=
  ⟨C6_session_always_closed.1 sampleEnv rfl rfl,
   C6_session_always_closed.2.1 sampleAppendEnv (.str "Subject: x") rfl rfl (by decide),
   C6_session_always_closed.2.2 { sampleAppendEnv with logoutOk := false }
     (.str "Subject: x") rfl⟩

/-- C7: `appendToSent` never propagates an error — its promise resolves on
every input and every IMAP outcome; when the enablement flag is off or the
credentials or message are missing it returns immediately as a no-op with
an empty trace; and the `/send` HTTP response never depends on the append
environment or its outcome. -/
theorem C7_append_errors_isolated :
    (∀ (env : AppendEnv) (raw : RawArg), (appendToSent env raw).1 = .ok ()) ∧
    (∀ (env : AppendEnv) (raw : RawArg),
      env.saveSentCopy = false ∨ env.hasCreds = false ∨ rawPassesGuard raw = false →
      appendToSent env raw = (.ok (), [])) ∧
    (∀ (v : ValidationOutcome) (s : SmtpOutcome) (e1 e2 : AppendEnv)
        (r1 r2 : RawArg),
      (sendPost v s e1 r1).1 = (sendPost v s e2 r2).1) := by
  refine ⟨?_, ?_, ?_⟩
  · intro env raw
    unfold appendToSent
    repeat' split
    all_goals rfl
  · intro env raw h
    rcases h with h | h | h <;> simp [appendToSent, h]
  · intro v s e1 e2 r1 r2
    cases v <;> cases s <;> rfl

/-- C7 witness: a disabled environment is an immediate no-op. -/
theorem C7_append_errors_isolated_witness :
    appendToSent { sampleAppendEnv with saveSentCopy := false } (.str "Subject: x") =
      (.ok (), []) :=
  C7_append_errors_isolated.2.1 { sampleAppendEnv with saveSentCopy := false }
    (.str "Subject: x") (Or.inl rfl)

/-- C8: the HTTP status of `POST /send` is exactly the one the spec's error
taxonomy assigns to the classified SMTP failure (401 auth, 502
connectivity, 502 TLS/certificate, 422 recipient rejection, 500
unclassified); input-validation failure yields 422, and success yields the
`{messageId, accepted, rejected}` body with status 200. -/
theorem C8_smtp_error_taxonomy :
    (∀ m : String, (mapSmtpError m).1 = statusForClass (classifySmtpError m)) ∧
    (∀ (d : String) (s : SmtpOutcome) (env : AppendEnv) (raw : RawArg),
      (sendPost (.fail d) s env raw).1 =
        ⟨422, .failure "Datos de entrada inválidos" (some d)⟩) ∧
    (∀ (mid : String) (acc rej : List String) (env : AppendEnv) (raw : RawArg),
      (sendPost .ok (.ok mid acc rej) env raw).1 = ⟨200, .success mid acc rej⟩) ∧
    (∀ (m : String) (env : AppendEnv) (raw : RawArg),
      (sendPost .ok (.err m) env raw).1 =
        ⟨(mapSmtpError m).1, .failure (mapSmtpError m).2 none⟩) := by
  refine ⟨?_, ?_, ?_, ?_⟩
  · intro m
    unfold mapSmtpError classifySmtpError statusForClass
    dsimp only
    split_ifs <;> rfl
  · intro d s env raw
    rfl
  · intro mid acc rej env raw
    rfl
  · intro m env raw
    rfl

/-- C9: the built RFC822 message is the header block followed by exactly
the spec's body shape — multipart/alternative under the boundary with the
plain part first and the html part second when both are present, a single
text/html part when only html is present, a single text/plain part
otherwise (with an empty body when neither is present), always with utf-8
charset and 8bit transfer encoding. -/
theorem C9_body_shape :
    (∀ (opts : MailOptions) (fromEmail : Option String)
        (dateStr genId boundary : String),
      buildRFC822Message opts fromEmail dateStr genId boundary =
        messageHeaders opts fromEmail dateStr genId ++
        specBodyShape (jsOr opts.text "") (jsOr opts.html "") boundary) ∧
    (∀ boundary : String,
      specBodyShape "" "" boundary = plainPart "\r\n") := by
  constructor
  · intro opts fromEmail dateStr genId boundary
    unfold buildRFC822Message messageHeaders specBodyShape plainPart htmlPart
    by_cases hh : jsOr opts.html "" = "" <;> by_cases ht : jsOr opts.text "" = "" <;>
      simp only [hh, ht, ne_eq, not_true_eq_false, not_false_eq_true, and_self,
        and_true, and_false, if_true, if_false, bne_self_eq_false,
        ite_true, ite_false, ← String.append_assoc] <;>
      simp [hh, ht, bne]
  · intro boundary
    rfl

/-- C10: with the enablement flag on and credentials present, a raw message
argument that is not a string (a Buffer, a plain object, or undefined) is
rejected by the no-op guard: `appendToSent` returns normally with an empty
trace — no IMAP client is created and no network operation happens. -/
theorem C10_nonstring_raw_noop (env : AppendEnv) (raw : RawArg)
    (hf : env.saveSentCopy = true) (hcr : env.hasCreds = true)
    (hns : ∀ s : String, raw ≠ RawArg.str s) :
    appendToSent env raw = (.ok (), []) := by
  have hg : rawPassesGuard raw = false := by
    cases raw with
    | str s => exact absurd rfl (hns s)
    | buffer => rfl
    | object => rfl
    | undefined => rfl
  simp [appendToSent, hg]

/-- C10 witness: a Buffer-valued raw message is a no-op. -/
theorem C10_nonstring_raw_noop_witness :
    appendToSent sampleAppendEnv .buffer = (.ok (), []) :=
  C10_nonstring_raw_noop sampleAppendEnv .buffer rfl rfl
    fun s h => RawArg.noConfusion h

end IonosRelay
